import Mathlib

/-
Shallow embedding of `huey/queue.py` (classes `AsyncData`, `Invoker`,
`QueueCommand`, `PeriodicQueueCommand`).

Modelling decisions, each noted at the definition it concerns:
* Pickled values are modelled by the inductive `PyVal`; `pickle.dumps` /
  `pickle.loads` are the identity on this type (the codec is lossless and
  self-describing, so a stored revoke pair unpickles back to a pair and a
  stored result back to the result).
* The result store (`self.result_store`) is an in-memory key/value map,
  modelled as an association list `DataStore`; `EmptyData` is `Option.none`.
* Backend handles that may be absent (`result_store`, `task_store`) are
  modelled by presence flags on the `Invoker` record; calling a method on an
  absent handle raises `AttributeError`, which the bare `except:` blocks in
  `_get` / `_put` wrap into `DataStoreGetException` / `DataStorePutException`.
  The in-memory backends themselves never fail.
* Exceptions are modelled with `Except`.
* Python 2 orders `None` below every `datetime`, so `revoke_until > dt`
  with `dt = None` is `True`; datetimes are modelled as `Int`.
* `time.sleep` and wall-clock timeouts in the blocking `AsyncData.get` loop
  are abstracted into a `fuel` parameter: each loop iteration that misses
  consumes one unit, and exhausted fuel is the elapsed-timeout path
  (`DataStoreTimeout`, with `revoke_on_timeout` left false).
-/

namespace Huey

/-- Picklable Python values as they occur in this module: `None`, booleans,
integers, strings, and the `(revoke_until, revoke_once)` pair written by
`Invoker.revoke`. -/
inductive PyVal where
  | pnone
  | pbool (b : Bool)
  | pint (n : Int)
  | pstr (s : String)
  | rpair (revoke_until : Option Int) (revoke_once : Bool)
  deriving DecidableEq, Repr

/-- The contents of a result-store backend: keys mapped to pickled values.
An association list; `dsPut` keeps keys unique. -/
abbrev DataStore := List (String × PyVal)

/-- Non-destructive lookup (`DataStore.peek`): the stored value, or
`Option.none` for the `EmptyData` sentinel. -/
def dsPeek (st : DataStore) (key : String) : Option PyVal :=
  (st.find? (fun p => p.1 == key)).map (fun p => p.2)

/-- Remove every binding of `key` (helper for `dsGet` and `dsPut`). -/
def dsErase (st : DataStore) (key : String) : DataStore :=
  st.filter (fun p => !(p.1 == key))

/-- Destructive lookup (`DataStore.get`): return the value (or the
`EmptyData` sentinel) and the store with the binding removed. -/
def dsGet (st : DataStore) (key : String) : Option PyVal × DataStore :=
  (dsPeek st key, dsErase st key)

/-- `DataStore.put`: bind `key` to `v`, replacing any previous binding. -/
def dsPut (st : DataStore) (key : String) (v : PyVal) : DataStore :=
  (key, v) :: dsErase st key

/-- A `QueueCommand` as the `Invoker` sees it: its `task_id`, whether it is
a `PeriodicQueueCommand`, and the value its user-defined `execute()` method
returns (user code that raises is outside the claims modelled here). -/
structure QueueCommand where
  task_id : String
  periodic : Bool
  result : PyVal
  deriving DecidableEq, Repr

/-- `self.revoke_id = 'r:%s' % self.task_id`. -/
def QueueCommand.revoke_id (c : QueueCommand) : String :=
  "r:" ++ c.task_id

/-- Exceptions raised in `queue.py`. `UnpackError` stands for the Python
`TypeError`/`ValueError` raised when `pickle.loads(res)` does not yield a
two-tuple in `is_revoked` (unreachable when the key holds a revoke pair). -/
inductive HueyExn where
  | QueueException (msg : String)
  | QueueWriteException
  | QueueReadException
  | DataStoreGetException
  | DataStorePutException
  | DataStoreTimeout
  | UnpackError
  deriving DecidableEq, Repr

/-- The `Invoker` configuration: which backend handles are present
(`result_store`, `task_store`) and the two policy flags
(`store_none`, `always_eager`).  The queue and result-store contents are
threaded separately as explicit state. -/
structure Invoker where
  has_result_store : Bool
  has_task_store : Bool
  store_none : Bool
  always_eager : Bool
  deriving DecidableEq, Repr

/-- `Invoker._get(key, peek=False)`: peek or destructively read from the
result store.  With no result store configured, `self.result_store.peek`
raises `AttributeError`, wrapped into `DataStoreGetException`. -/
def Invoker._get (inv : Invoker) (st : DataStore) (key : String)
    (peek : Bool) : Except HueyExn (Option PyVal × DataStore) :=
  if inv.has_result_store then
    if peek then Except.ok (dsPeek st key, st)
    else Except.ok (dsGet st key)
  else Except.error HueyExn.DataStoreGetException

/-- `Invoker._put(key, value)`: write to the result store; with no result
store configured the wrapped failure is `DataStorePutException`. -/
def Invoker._put (inv : Invoker) (st : DataStore) (key : String)
    (v : PyVal) : Except HueyExn DataStore :=
  if inv.has_result_store then Except.ok (dsPut st key v)
  else Except.error HueyExn.DataStorePutException

/-- `Invoker.revoke(command, revoke_until=None, revoke_once=False)`:
raise `QueueException` when `self.task_store` is falsy, otherwise pickle
`(revoke_until, revoke_once)` and `_put` it under `command.revoke_id`. -/
def Invoker.revoke (inv : Invoker) (st : DataStore) (command : QueueCommand)
    (revoke_until : Option Int) (revoke_once : Bool) :
    Except HueyExn DataStore :=
  if inv.has_task_store = false then
    Except.error
      (HueyExn.QueueException "A DataStore is required to revoke commands")
  else
    inv._put st command.revoke_id (PyVal.rpair revoke_until revoke_once)

/-- `Invoker.restore(command)`: `self._get(command.revoke_id)` — a
destructive read whose value is discarded ("simply get and delete if
there"). -/
def Invoker.restore (inv : Invoker) (st : DataStore)
    (command : QueueCommand) : Except HueyExn DataStore :=
  match inv._get st command.revoke_id false with
  | Except.ok (_, st2) => Except.ok st2
  | Except.error e => Except.error e

/-- The Python 2 comparison `revoke_until > dt` for a non-`None`
`revoke_until`: `None` sorts below every datetime, so `dt = None` yields
`True`. -/
def pyGtDt (t : Int) (dt : Option Int) : Bool :=
  match dt with
  | Option.none => true
  | Option.some d => decide (d < t)

/-- The final expression of `is_revoked`:
`revoke_until is None or revoke_until > dt`. -/
def revokeActive (revoke_until : Option Int) (dt : Option Int) : Bool :=
  match revoke_until with
  | Option.none => true
  | Option.some t => pyGtDt t dt

/-- `Invoker.is_revoked(command, dt=None, preserve=True)`: return `False`
with no result store; peek (`peek=True`, unconditionally) at
`command.revoke_id`; `False` on the `EmptyData` sentinel; unpickle the pair;
for a one-shot revoke return `True`, calling `restore` first when
`preserve` is false; otherwise return
`revoke_until is None or revoke_until > dt`. -/
def Invoker.is_revoked (inv : Invoker) (st : DataStore)
    (command : QueueCommand) (dt : Option Int) (preserve : Bool) :
    Except HueyExn (Bool × DataStore) :=
  if inv.has_result_store = false then Except.ok (false, st)
  else
    match inv._get st command.revoke_id true with
    | Except.error e => Except.error e
    | Except.ok (res, st1) =>
      match res with
      | Option.none => Except.ok (false, st1)
      | Option.some v =>
        match v with
        | PyVal.rpair revoke_until revoke_once =>
          if revoke_once then
            if preserve then Except.ok (true, st1)
            else
              match inv.restore st1 command with
              | Except.ok st2 => Except.ok (true, st2)
              | Except.error e => Except.error e
          else Except.ok (revokeActive revoke_until dt, st1)
        | _ => Except.error HueyExn.UnpackError

/-- `Invoker.execute(command)`: run the user code (here: read off
`command.result`); when the value is `None` and `store_none` is false,
return early (returning Python `None`, which is the value itself); when a
result store is configured and the command is not periodic, `_put` the
pickled value under `task_id`; return the value. -/
def Invoker.execute (inv : Invoker) (st : DataStore)
    (command : QueueCommand) : PyVal × DataStore :=
  let result := command.result
  if result == PyVal.pnone && !inv.store_none then (result, st)
  else if inv.has_result_store && !command.periodic then
    (result, dsPut st command.task_id result)
  else (result, st)

/-- `AsyncData`: the lazy result handle.  `_result` starts at the
`EmptyData` sentinel (`Option.none`) and caches the first unpickled value
fetched from the store. -/
structure AsyncData where
  command : QueueCommand
  _result : Option PyVal
  deriving DecidableEq, Repr

/-- The state the `Invoker` acts on when enqueueing: the queue contents
(messages round-trip through the registry, so they are kept as commands)
and the result-store contents. -/
structure HueyState where
  queue : List QueueCommand
  results : DataStore
  deriving DecidableEq, Repr

/-- The three shapes `Invoker.enqueue` can return: the raw value of an
eagerly executed command, an `AsyncData` handle, or Python's implicit
`None` when no result store is configured. -/
inductive EnqueueReturn where
  | value (v : PyVal)
  | handle (a : AsyncData)
  | pynone
  deriving DecidableEq, Repr

/-- `Invoker.enqueue(command)`: with `always_eager`, run `command.execute()`
directly and return its raw value; otherwise `_write` the registry message
for the command to the queue (the in-memory queue never raises
`QueueWriteException`) and, when a result store is configured, return an
`AsyncData` handle; otherwise fall off the function (Python `None`). -/
def Invoker.enqueue (inv : Invoker) (s : HueyState)
    (command : QueueCommand) : EnqueueReturn × HueyState :=
  if inv.always_eager then (EnqueueReturn.value command.result, s)
  else
    let s2 : HueyState := { queue := s.queue ++ [command], results := s.results }
    if inv.has_result_store then
      (EnqueueReturn.handle { command := command, _result := Option.none }, s2)
    else (EnqueueReturn.pynone, s2)

/-- `AsyncData._get()`: if `_result` still holds the `EmptyData` sentinel,
destructively read `invoker._get(task_id)`; on a hit, unpickle and cache
the value; on a miss return the sentinel.  Otherwise return the cached
value. -/
def AsyncData._get (inv : Invoker) (a : AsyncData) (st : DataStore) :
    Except HueyExn (Option PyVal × AsyncData × DataStore) :=
  match a._result with
  | Option.some r => Except.ok (Option.some r, a, st)
  | Option.none =>
    match inv._get st a.command.task_id false with
    | Except.error e => Except.error e
    | Except.ok (res, st2) =>
      match res with
      | Option.some v =>
        Except.ok (Option.some v, { command := a.command, _result := Option.some v }, st2)
      | Option.none => Except.ok (Option.none, a, st2)

/-- The `while self._result is EmptyData` loop of blocking
`AsyncData.get`: return the cache once it is filled; otherwise check the
timeout (fuel exhausted raises `DataStoreTimeout`), call `_get`, sleep,
and loop. -/
def AsyncData.getLoop (inv : Invoker) (a : AsyncData) (st : DataStore)
    (fuel : Nat) : Except HueyExn (PyVal × AsyncData × DataStore) :=
  match a._result with
  | Option.some r => Except.ok (r, a, st)
  | Option.none =>
    match fuel with
    | 0 => Except.error HueyExn.DataStoreTimeout
    | Nat.succ f =>
      match AsyncData._get inv a st with
      | Except.error e => Except.error e
      | Except.ok (_, a2, st2) => AsyncData.getLoop inv a2 st2 f

/-- `AsyncData.get(blocking=False, ...)`: non-blocking does one `_get` and
returns its value when it is not the `EmptyData` sentinel — otherwise the
function falls off the end and returns Python `None`.  Blocking runs the
polling loop (`getLoop`). -/
def AsyncData.get (inv : Invoker) (a : AsyncData) (st : DataStore)
    (blocking : Bool) (fuel : Nat) :
    Except HueyExn (PyVal × AsyncData × DataStore) :=
  if blocking = false then
    match AsyncData._get inv a st with
    | Except.error e => Except.error e
    | Except.ok (res, a2, st2) =>
      match res with
      | Option.some v => Except.ok (v, a2, st2)
      | Option.none => Except.ok (PyVal.pnone, a2, st2)
  else AsyncData.getLoop inv a st fuel

/-! Basic lemmas about the association-list store. -/

theorem dsPeek_dsPut_self (st : DataStore) (key : String) (v : PyVal) :
    dsPeek (dsPut st key v) key = Option.some v := by
  simp [dsPeek, dsPut, List.find?_cons]

theorem find?_dsErase_self (st : DataStore) (key : String) :
    (dsErase st key).find? (fun p => p.1 == key) = Option.none := by
  rw [List.find?_eq_none]
  intro p hp
  have hmem := List.mem_filter.1 hp
  simpa using hmem.2

theorem dsPeek_dsErase_self (st : DataStore) (key : String) :
    dsPeek (dsErase st key) key = Option.none := by
  simp [dsPeek, find?_dsErase_self]

theorem dsErase_eq_of_peek_none (st : DataStore) (key : String)
    (h : dsPeek st key = Option.none) : dsErase st key = st := by
  have hfind : st.find? (fun p => p.1 == key) = Option.none := by
    simpa [dsPeek] using h
  have hall := List.find?_eq_none.1 hfind
  unfold dsErase
  apply List.filter_eq_self.2
  intro p hp
  simpa using hall p hp

theorem filter_dsErase_self (st : DataStore) (key : String) :
    (dsErase st key).filter (fun p => p.1 == key) = [] := by
  rw [List.filter_eq_nil_iff]
  intro p hp
  have hmem := List.mem_filter.1 hp
  simpa using hmem.2

/-! Behaviour of the revoke operations, shared by several theorems below. -/

theorem revoke_ok (inv : Invoker) (st : DataStore) (command : QueueCommand)
    (u : Option Int) (o : Bool)
    (hts : inv.has_task_store = true) (hrs : inv.has_result_store = true) :
    inv.revoke st command u o
      = Except.ok (dsPut st command.revoke_id (PyVal.rpair u o)) := by
  simp [Invoker.revoke, Invoker._put, hts, hrs]

theorem restore_ok (inv : Invoker) (st : DataStore) (command : QueueCommand)
    (hrs : inv.has_result_store = true) :
    inv.restore st command = Except.ok (dsErase st command.revoke_id) := by
  simp [Invoker.restore, Invoker._get, hrs, dsGet]

theorem is_revoked_of_record (inv : Invoker) (st : DataStore)
    (command : QueueCommand) (dt : Option Int) (preserve : Bool)
    (u : Option Int) (o : Bool)
    (hrs : inv.has_result_store = true)
    (hrec : dsPeek st command.revoke_id = Option.some (PyVal.rpair u o)) :
    inv.is_revoked st command dt preserve =
      if o = true ∧ preserve = false then
        Except.ok (true, dsErase st command.revoke_id)
      else Except.ok (o || revokeActive u dt, st) := by
  unfold Invoker.is_revoked Invoker._get
  rw [hrs]
  simp only [Bool.true_eq_false, if_false, if_true, hrec]
  cases o with
  | false => simp
  | true =>
    cases preserve with
    | false => simp [restore_ok inv st command hrs]
    | true => simp

theorem is_revoked_of_no_record (inv : Invoker) (st : DataStore)
    (command : QueueCommand) (dt : Option Int) (preserve : Bool)
    (hrs : inv.has_result_store = true)
    (hrec : dsPeek st command.revoke_id = Option.none) :
    inv.is_revoked st command dt preserve = Except.ok (false, st) := by
  unfold Invoker.is_revoked Invoker._get
  rw [hrs]
  simp [hrec]

/-! Claim theorems. -/

/-- Claim C1 (code bug): `Invoker.revoke` guards on `task_store`, not on the
result store where the revoke record is written and read.  With a result
store configured but no task store it raises the configuration error
`QueueException('A DataStore is required to revoke commands')`; with a task
store configured but no result store it does not raise that error but fails
with `DataStorePutException` from `_put`; with both configured it writes the
pair `(revoke_until, revoke_once)` under the command's `revoke_id`. -/
theorem revoke_guard_checks_task_store :
    (Invoker.revoke ⟨true, false, false, false⟩ [] ⟨"t", false, PyVal.pnone⟩
        Option.none false
      = Except.error
          (HueyExn.QueueException "A DataStore is required to revoke commands")) ∧
    (Invoker.revoke ⟨false, true, false, false⟩ [] ⟨"t", false, PyVal.pnone⟩
        Option.none false
      = Except.error HueyExn.DataStorePutException) ∧
    (Invoker.revoke ⟨true, true, false, false⟩ [] ⟨"t", false, PyVal.pnone⟩
        Option.none false
      = Except.ok [("r:t", PyVal.rpair Option.none false)]) := by
  exact ⟨rfl, rfl, rfl⟩

/-- Claim C8: `execute` returns the value produced by the command's user
code, and the result store afterwards is `dsPut st task_id value` exactly
when a result store is configured, the command is not periodic, and the
value is not `None` or `store_none` is set — otherwise the store is
untouched.  A `dsPut` leaves exactly one record under `task_id`. -/
theorem execute_result_persistence (inv : Invoker) (st : DataStore)
    (command : QueueCommand) :
    inv.execute st command =
      (command.result,
        if inv.has_result_store = true ∧ command.periodic = false ∧
            (command.result ≠ PyVal.pnone ∨ inv.store_none = true) then
          dsPut st command.task_id command.result
        else st) ∧
    ((dsPut st command.task_id command.result).filter
        (fun p => p.1 == command.task_id)).length = 1 := by
  constructor
  · unfold Invoker.execute
    by_cases h1 : command.result = PyVal.pnone <;>
      by_cases h2 : inv.store_none <;>
      by_cases h3 : inv.has_result_store <;>
      by_cases h4 : command.periodic <;>
      simp [h1, h2, h3, h4]
  · simp [dsPut, List.filter_cons, filter_dsErase_self st command.task_id]

/-- Claim C9: with no result store configured, `is_revoked` returns `False`
for every command, datetime and preserve flag, leaves the store untouched
and raises nothing, whatever the store holds. -/
theorem is_revoked_no_result_store (inv : Invoker) (st : DataStore)
    (command : QueueCommand) (dt : Option Int) (preserve : Bool)
    (h : inv.has_result_store = false) :
    inv.is_revoked st command dt preserve = Except.ok (false, st) := by
  simp [Invoker.is_revoked, h]

/-- Witness for C9 at a store that does hold a revoke record. -/
theorem is_revoked_no_result_store_witness :
    Invoker.is_revoked ⟨false, true, false, false⟩
      [("r:a", PyVal.rpair Option.none false)] ⟨"a", false, PyVal.pnone⟩
      (Option.some 3) false
      = Except.ok (false, [("r:a", PyVal.rpair Option.none false)]) :=
  is_revoked_no_result_store ⟨false, true, false, false⟩
    [("r:a", PyVal.rpair Option.none false)] ⟨"a", false, PyVal.pnone⟩
    (Option.some 3) false rfl

/-- Claim C10: with `always_eager`, `enqueue` runs the command's user code
and returns its raw value; the queue and the result store are unchanged and
no `AsyncData` handle is created. -/
theorem enqueue_always_eager (inv : Invoker) (s : HueyState)
    (command : QueueCommand) (h : inv.always_eager = true) :
    inv.enqueue s command = (EnqueueReturn.value command.result, s) := by
  simp [Invoker.enqueue, h]

/-- Witness for C10 with a non-null value and `store_none` set. -/
theorem enqueue_always_eager_witness :
    Invoker.enqueue ⟨true, true, true, true⟩ ⟨[], []⟩
      ⟨"t", false, PyVal.pint 4⟩
      = (EnqueueReturn.value (PyVal.pint 4), ⟨[], []⟩) :=
  enqueue_always_eager ⟨true, true, true, true⟩ ⟨[], []⟩
    ⟨"t", false, PyVal.pint 4⟩ rfl

/-- Claim C2 (counterexample): with an indefinite revoke record
`(None, False)` present, `is_revoked(command, 0, preserve=False)` returns
`True` and leaves the record in the store — the read is a peek, not the
destructive read the claim states for `preserve=False`. -/
theorem is_revoked_indefinite_not_consumed :
    Invoker.is_revoked ⟨true, true, false, false⟩
        [("r:t", PyVal.rpair Option.none false)] ⟨"t", false, PyVal.pnone⟩
        (Option.some 0) false
      = Except.ok (true, [("r:t", PyVal.rpair Option.none false)]) ∧
    dsPeek [("r:t", PyVal.rpair Option.none false)] "r:t"
      = Option.some (PyVal.rpair Option.none false) := ⟨rfl, rfl⟩

/-- Claim C2 (amended): `is_revoked` always reads the revoke record with
`peek=True`; only when the record has `revoke_once` set and `preserve` is
false is it then destructively removed (via `restore`); every other record
is left in place whatever `preserve` is. -/
theorem is_revoked_peek_semantics (inv : Invoker) (st : DataStore)
    (command : QueueCommand) (dt : Option Int) (preserve : Bool)
    (u : Option Int) (o : Bool)
    (hrs : inv.has_result_store = true)
    (hrec : dsPeek st command.revoke_id = Option.some (PyVal.rpair u o)) :
    inv.is_revoked st command dt preserve =
      if o = true ∧ preserve = false then
        Except.ok (true, dsErase st command.revoke_id)
      else Except.ok (o || revokeActive u dt, st) :=
  is_revoked_of_record inv st command dt preserve u o hrs hrec

/-- Witness for C2 at a one-shot record with `preserve=False`, the one case
where the record is removed. -/
theorem is_revoked_peek_semantics_witness :
    Invoker.is_revoked ⟨true, true, false, false⟩
        [("r:t", PyVal.rpair Option.none true)] ⟨"t", false, PyVal.pnone⟩
        Option.none false
      = Except.ok (true, []) := by
  have h := is_revoked_peek_semantics ⟨true, true, false, false⟩
    [("r:t", PyVal.rpair Option.none true)] ⟨"t", false, PyVal.pnone⟩
    Option.none false Option.none true rfl rfl
  simpa using h

/-- Claim C3: after `revoke(command)` with the default arguments, every
`is_revoked(command, dt, preserve=False)` call returns `True` and returns
the store unchanged (so the record survives any number of repetitions, for
every `dt`); once `restore(command)` removes the record, `is_revoked`
returns `False` for every `dt` and `preserve`. -/
theorem revoke_indefinite_until_restore (inv : Invoker) (st st2 : DataStore)
    (command : QueueCommand)
    (hts : inv.has_task_store = true) (hrs : inv.has_result_store = true)
    (hrev : inv.revoke st command Option.none false = Except.ok st2) :
    (∀ dt : Option Int,
      inv.is_revoked st2 command dt false = Except.ok (true, st2)) ∧
    (∀ st3 : DataStore, inv.restore st2 command = Except.ok st3 →
      ∀ (dt : Option Int) (preserve : Bool),
        inv.is_revoked st3 command dt preserve = Except.ok (false, st3)) := by
  have hst2 : st2 = dsPut st command.revoke_id (PyVal.rpair Option.none false) := by
    rw [revoke_ok inv st command Option.none false hts hrs] at hrev
    exact (Except.ok.inj hrev).symm
  have hrec : dsPeek st2 command.revoke_id
      = Option.some (PyVal.rpair Option.none false) := by
    rw [hst2]; exact dsPeek_dsPut_self st command.revoke_id _
  constructor
  · intro dt
    have h := is_revoked_of_record inv st2 command dt false Option.none false hrs hrec
    simpa [revokeActive] using h
  · intro st3 hres dt preserve
    have hst3 : st3 = dsErase st2 command.revoke_id := by
      rw [restore_ok inv st2 command hrs] at hres
      exact (Except.ok.inj hres).symm
    have hnone : dsPeek st3 command.revoke_id = Option.none := by
      rw [hst3]; exact dsPeek_dsErase_self st2 command.revoke_id
    exact is_revoked_of_no_record inv st3 command dt preserve hrs hnone

/-- Witness for C3: a concrete indefinite revoke, one non-preserving check
that returns `True` and keeps the record, then a restore after which the
check returns `False`. -/
theorem revoke_indefinite_until_restore_witness :
    Invoker.is_revoked ⟨true, true, false, false⟩
        [("r:a", PyVal.rpair Option.none false)] ⟨"a", false, PyVal.pnone⟩
        (Option.some 7) false
      = Except.ok (true, [("r:a", PyVal.rpair Option.none false)]) ∧
    Invoker.is_revoked ⟨true, true, false, false⟩ []
        ⟨"a", false, PyVal.pnone⟩ (Option.some 7) false
      = Except.ok (false, []) := by
  have h := revoke_indefinite_until_restore ⟨true, true, false, false⟩ []
    [("r:a", PyVal.rpair Option.none false)] ⟨"a", false, PyVal.pnone⟩
    rfl rfl rfl
  exact ⟨h.1 (Option.some 7), h.2 [] rfl (Option.some 7) false⟩

/-- Claim C4: after `revoke(command, once=True)`, the first
`is_revoked(command, now, preserve=False)` returns `True` and deletes the
revoke record, and a second such call returns `False`, for all times `now`
and `now2`. -/
theorem revoke_once_consumed (inv : Invoker) (st st2 : DataStore)
    (command : QueueCommand)
    (hts : inv.has_task_store = true) (hrs : inv.has_result_store = true)
    (hrev : inv.revoke st command Option.none true = Except.ok st2) :
    ∀ now now2 : Int,
      inv.is_revoked st2 command (Option.some now) false
        = Except.ok (true, dsErase st2 command.revoke_id) ∧
      dsPeek (dsErase st2 command.revoke_id) command.revoke_id
        = Option.none ∧
      inv.is_revoked (dsErase st2 command.revoke_id) command
          (Option.some now2) false
        = Except.ok (false, dsErase st2 command.revoke_id) := by
  intro now now2
  have hst2 : st2 = dsPut st command.revoke_id (PyVal.rpair Option.none true) := by
    rw [revoke_ok inv st command Option.none true hts hrs] at hrev
    exact (Except.ok.inj hrev).symm
  have hrec : dsPeek st2 command.revoke_id
      = Option.some (PyVal.rpair Option.none true) := by
    rw [hst2]; exact dsPeek_dsPut_self st command.revoke_id _
  have hnone : dsPeek (dsErase st2 command.revoke_id) command.revoke_id
      = Option.none := dsPeek_dsErase_self st2 command.revoke_id
  refine ⟨?_, hnone, ?_⟩
  · have h := is_revoked_of_record inv st2 command (Option.some now) false
      Option.none true hrs hrec
    simpa using h
  · exact is_revoked_of_no_record inv (dsErase st2 command.revoke_id) command
      (Option.some now2) false hrs hnone

/-- Witness for C4 at two concrete times. -/
theorem revoke_once_consumed_witness :
    Invoker.is_revoked ⟨true, true, false, false⟩
        [("r:b", PyVal.rpair Option.none true)] ⟨"b", false, PyVal.pnone⟩
        (Option.some 1) false
      = Except.ok (true, []) ∧
    Invoker.is_revoked ⟨true, true, false, false⟩ []
        ⟨"b", false, PyVal.pnone⟩ (Option.some 2) false
      = Except.ok (false, []) := by
  have h := revoke_once_consumed ⟨true, true, false, false⟩ []
    [("r:b", PyVal.rpair Option.none true)] ⟨"b", false, PyVal.pnone⟩
    rfl rfl rfl 1 2
  exact ⟨by simpa using h.1, by simpa using h.2.2⟩

/-- Claim C5: after `revoke(command, until=T, once=False)`, for every time
`now`, `is_revoked(command, now)` (default `preserve=True`) returns `True`
exactly when `now < T`, leaving the store unchanged; at `now = T` and later
it returns `False`. -/
theorem revoke_until_boundary (inv : Invoker) (st st2 : DataStore)
    (command : QueueCommand) (T : Int)
    (hts : inv.has_task_store = true) (hrs : inv.has_result_store = true)
    (hrev : inv.revoke st command (Option.some T) false = Except.ok st2) :
    ∀ now : Int,
      inv.is_revoked st2 command (Option.some now) true
        = Except.ok (decide (now < T), st2) := by
  intro now
  have hst2 : st2 = dsPut st command.revoke_id (PyVal.rpair (Option.some T) false) := by
    rw [revoke_ok inv st command (Option.some T) false hts hrs] at hrev
    exact (Except.ok.inj hrev).symm
  have hrec : dsPeek st2 command.revoke_id
      = Option.some (PyVal.rpair (Option.some T) false) := by
    rw [hst2]; exact dsPeek_dsPut_self st command.revoke_id _
  have h := is_revoked_of_record inv st2 command (Option.some now) true
    (Option.some T) false hrs hrec
  simpa [revokeActive, pyGtDt] using h

/-- Witness for C5 on both sides of the boundary: `now = 4 < 5` revoked,
`now = 5` not revoked. -/
theorem revoke_until_boundary_witness :
    Invoker.is_revoked ⟨true, true, false, false⟩
        [("r:c", PyVal.rpair (Option.some 5) false)] ⟨"c", false, PyVal.pnone⟩
        (Option.some 4) true
      = Except.ok (true, [("r:c", PyVal.rpair (Option.some 5) false)]) ∧
    Invoker.is_revoked ⟨true, true, false, false⟩
        [("r:c", PyVal.rpair (Option.some 5) false)] ⟨"c", false, PyVal.pnone⟩
        (Option.some 5) true
      = Except.ok (false, [("r:c", PyVal.rpair (Option.some 5) false)]) := by
  have h4 := revoke_until_boundary ⟨true, true, false, false⟩ []
    [("r:c", PyVal.rpair (Option.some 5) false)] ⟨"c", false, PyVal.pnone⟩ 5
    rfl rfl rfl 4
  have h5 := revoke_until_boundary ⟨true, true, false, false⟩ []
    [("r:c", PyVal.rpair (Option.some 5) false)] ⟨"c", false, PyVal.pnone⟩ 5
    rfl rfl rfl 5
  exact ⟨by simpa using h4, by simpa using h5⟩

/-- Claim C6 (counterexample): a non-blocking `get()` on a handle whose task
has no record in the store returns Python `None` (the function falls off its
end), and that is exactly the value `get()` returns for a task whose stored
result is `None` — so the miss return is not a sentinel distinct from every
valid stored result. -/
theorem get_miss_returns_python_none :
    (AsyncData.get ⟨true, true, false, false⟩
        ⟨⟨"t", false, PyVal.pnone⟩, Option.none⟩ [] false 0
      = Except.ok (PyVal.pnone,
          ⟨⟨"t", false, PyVal.pnone⟩, Option.none⟩, [])) ∧
    (AsyncData.get ⟨true, true, false, false⟩
        ⟨⟨"t", false, PyVal.pnone⟩, Option.none⟩ [("t", PyVal.pnone)] false 0
      = Except.ok (PyVal.pnone,
          ⟨⟨"t", false, PyVal.pnone⟩, Option.some PyVal.pnone⟩, [])) :=
  ⟨rfl, rfl⟩

/-- Claim C6 (amended): for a handle with an unfilled cache and no store
record for its task, a non-blocking `get()` performs one store lookup and
returns Python `None` — internally the lookup yields the `EmptyData`
sentinel, but the caller receives `None`, a value a stored null result also
produces; the handle and the store are left unchanged. -/
theorem get_nonblocking_miss (inv : Invoker) (a : AsyncData) (st : DataStore)
    (hrs : inv.has_result_store = true)
    (hcache : a._result = Option.none)
    (hmiss : dsPeek st a.command.task_id = Option.none) :
    AsyncData.get inv a st false 0 = Except.ok (PyVal.pnone, a, st) := by
  have herase : dsErase st a.command.task_id = st :=
    dsErase_eq_of_peek_none st a.command.task_id hmiss
  simp [AsyncData.get, AsyncData._get, Invoker._get, hcache, hrs, dsGet,
    hmiss, herase]

/-- Witness for C6: the concrete miss from the counterexample, through the
amended theorem. -/
theorem get_nonblocking_miss_witness :
    AsyncData.get ⟨true, true, false, false⟩
        ⟨⟨"w", false, PyVal.pnone⟩, Option.none⟩ [("x", PyVal.pint 1)] false 0
      = Except.ok (PyVal.pnone,
          ⟨⟨"w", false, PyVal.pnone⟩, Option.none⟩, [("x", PyVal.pint 1)]) :=
  get_nonblocking_miss ⟨true, true, false, false⟩
    ⟨⟨"w", false, PyVal.pnone⟩, Option.none⟩ [("x", PyVal.pint 1)]
    rfl rfl rfl

/-- Claim C7: once `_get` has produced a non-empty value `v` (the only way
any `get()` call returns a non-empty value), the handle caches `v`, and
every subsequent `get()` — blocking or not, with any fuel, over any store
contents — returns `v` and touches neither the handle nor the store. -/
theorem get_cached_after_first_hit (inv : Invoker) (a a2 : AsyncData)
    (st st2 : DataStore) (v : PyVal)
    (hfirst : AsyncData._get inv a st
      = Except.ok (Option.some v, a2, st2)) :
    a2._result = Option.some v ∧
    ∀ (st3 : DataStore) (blocking : Bool) (fuel : Nat),
      AsyncData.get inv a2 st3 blocking fuel = Except.ok (v, a2, st3) := by
  have hcache : a2._result = Option.some v := by
    unfold AsyncData._get Invoker._get at hfirst
    cases hr : a._result with
    | some r =>
      rw [hr] at hfirst
      simp at hfirst
      rw [← hfirst.2.1, hr]
      exact congrArg Option.some hfirst.1
    | none =>
      rw [hr] at hfirst
      cases hb : inv.has_result_store with
      | false => rw [hb] at hfirst; simp at hfirst
      | true =>
        rw [hb] at hfirst
        simp [dsGet] at hfirst
        cases hp : dsPeek st a.command.task_id with
        | none =>
          rw [hp] at hfirst
          simp at hfirst
        | some w =>
          rw [hp] at hfirst
          simp at hfirst
          rw [← hfirst.2.1]
          exact congrArg Option.some hfirst.1
  refine ⟨hcache, ?_⟩
  intro st3 blocking fuel
  cases blocking with
  | false => simp [AsyncData.get, AsyncData._get, hcache]
  | true =>
    cases fuel with
    | zero => simp [AsyncData.get, AsyncData.getLoop, hcache]
    | succ f => simp [AsyncData.get, AsyncData.getLoop, hcache]

/-- Witness for C7: a concrete first hit fills the cache, after which a
blocking `get` with zero fuel over a store that no longer holds the value
still returns it. -/
theorem get_cached_after_first_hit_witness :
    AsyncData.get ⟨true, true, false, false⟩
        ⟨⟨"t", false, PyVal.pnone⟩, Option.some (PyVal.pstr "v")⟩
        [("t", PyVal.pint 0)] true 0
      = Except.ok (PyVal.pstr "v",
          ⟨⟨"t", false, PyVal.pnone⟩, Option.some (PyVal.pstr "v")⟩,
          [("t", PyVal.pint 0)]) :=
  (get_cached_after_first_hit ⟨true, true, false, false⟩
    ⟨⟨"t", false, PyVal.pnone⟩, Option.none⟩
    ⟨⟨"t", false, PyVal.pnone⟩, Option.some (PyVal.pstr "v")⟩
    [("t", PyVal.pstr "v")] [] (PyVal.pstr "v") rfl).2
    [("t", PyVal.pint 0)] true 0

end Huey
